import Mathlib

/-!
Shallow embedding of the repository's image-analysis orchestrator
(`processImagesWithOpenAI` in the server's OpenAI service module) and of the
`/api/process-images` route handler (`registerRoutes` in
`src/server/routes.ts`).

The remote assistant service is abstracted as a `RemoteBehaviour`: one
prescribed outcome per remote operation (per file index for uploads, per poll
index for run-state retrievals).  The orchestrator is embedded as a function
from a behaviour, the credentials and the file list to the `OpenAIResponse` it
returns, paired with the trace of remote operations it invoked.  The source's
polling loop has no iteration bound, so the embedding takes a fuel parameter:
`none` means the loop was still running after `fuel` iterations.
-/

/-- An uploaded multipart file as the orchestrator receives it (the fields the
orchestration logic can observe; the raw buffer is irrelevant to control
flow). -/
structure MulterFile where
  originalname : String
  mimetype : String
  size : Nat
  deriving DecidableEq, Repr

/-- Role of a thread message (`msg.role` in the source). -/
inductive MsgRole
  | user
  | assistant
  deriving DecidableEq, Repr

/-- One content segment of a thread message (`contentPart` in the source):
either a text segment carrying `contentPart.text.value`, or an image
reference. -/
inductive ContentPart
  | text (value : String)
  | image_file (fileId : String)
  deriving DecidableEq, Repr

/-- A message returned by the remote list-messages operation. -/
structure ThreadMessage where
  role : MsgRole
  content : List ContentPart
  deriving DecidableEq, Repr

/-- Remote-reported run states (`runStatus.status` in the source). -/
inductive RunStat
  | queued
  | in_progress
  | completed
  | failed
  | requires_action
  | cancelled
  | expired
  | incomplete
  deriving DecidableEq, Repr

/-- The result of one run-state retrieval.  `lastErrorMessage` models the
JavaScript optional chain `runStatus.last_error?.message`: `none` when no
`last_error` (or no message) is supplied. -/
structure RunSnapshot where
  status : RunStat
  lastErrorMessage : Option String
  deriving DecidableEq, Repr

/-- One prescribed outcome per remote operation.  `Except.error e` means the
corresponding client call rejects with an error whose `message` is `e`. -/
structure RemoteBehaviour where
  uploadFile : Nat → Except String String
  createThread : Except String String
  createMessage : Except String Unit
  createRun : Except String String
  retrieveRun : Nat → Except String RunSnapshot
  listMessages : Except String (List ThreadMessage)
  deleteFile : String → Except String Unit

/-- One remote operation actually invoked by the orchestrator, recorded in
invocation order. -/
inductive RemoteEvent
  | uploadFile (index : Nat)
  | createThread
  | createMessage
  | createRun
  | retrieveRun (pollIndex : Nat)
  | listMessages
  | deleteFile (fileId : String)
  deriving DecidableEq, Repr

/-- The orchestrator's returned value (`OpenAIResponse` in the shared schema):
the success form carries the `data` field (`none` models a `null` value), the
error form carries the `error` field. -/
inductive OpenAIResponse
  | data (value : Option String)
  | error (message : String)
  deriving DecidableEq, Repr

/-- JavaScript `s || d` on strings: the empty string is falsy. -/
def jsOrElse (s d : String) : String :=
  if s = "" then d else s

/-- JavaScript `x?.m || d` where the optional chain may be undefined. -/
def jsOptOr (s : Option String) (d : String) : String :=
  match s with
  | some m => jsOrElse m d
  | none => d

/-- Fallback message of the orchestrator's catch block. -/
def catchDefault : String := "An error occurred while processing with OpenAI"

/-- Message thrown when an in-loop retrieval observes `requires_action`. -/
def requiresActionMsg : String :=
  "The assistant requires additional input to complete the task"

/-- Fallback message when a failed run reports no failure reason. -/
def runFailedFallback : String := "The assistant failed to process the images"

/-- Message thrown when no assistant-authored message is found. -/
def noAssistantMsg : String := "No response received from the assistant"

/-- `msg.role === "assistant"` from the source's filter. -/
def isAssistant (m : ThreadMessage) : Bool :=
  match m.role with
  | MsgRole.assistant => true
  | MsgRole.user => false

/-- Result collection of `Promise.all(files.map(upload))`.  Every upload in
the list is started (hence attempted remotely) regardless of the others; the
collected result is the list of file ids when all succeed, otherwise the error
of the lowest failing index (the deterministic stand-in for the first
rejection to settle). -/
def collectUploads (B : RemoteBehaviour) : List Nat → Except String (List String)
  | [] => Except.ok []
  | i :: rest =>
    match B.uploadFile i with
    | Except.error e => Except.error e
    | Except.ok id =>
      match collectUploads B rest with
      | Except.error e => Except.error e
      | Except.ok ids => Except.ok (id :: ids)

/-- The upload phase's collected result for `n` files. -/
def uploadResults (B : RemoteBehaviour) (n : Nat) : Except String (List String) :=
  collectUploads B (List.range n)

/-- The upload phase's trace: all `n` uploads are attempted. -/
def uploadEvents (n : Nat) : List RemoteEvent :=
  (List.range n).map RemoteEvent.uploadFile

/-- The source's polling loop.  `cur` is the index of the last run-state
retrieval performed and `snap` its snapshot.  The loop re-retrieves while the
status is neither `completed` nor `failed`; a `requires_action` status is
inspected only on the in-loop retrievals (index at least 1), exactly as in the
source, where the check sits inside the loop body after the re-retrieval.
Returns the loop's outcome (the final snapshot, or the thrown error message)
together with the index of the last retrieval performed; `none` when `fuel`
loop iterations did not suffice. -/
def pollGo (ret : Nat → Except String RunSnapshot) :
    Nat → RunSnapshot → Nat → Option (Except String RunSnapshot × Nat)
  | cur, snap, 0 =>
    if snap.status = RunStat.completed ∨ snap.status = RunStat.failed then
      some (Except.ok snap, cur)
    else
      none
  | cur, snap, fuel + 1 =>
    if snap.status = RunStat.completed ∨ snap.status = RunStat.failed then
      some (Except.ok snap, cur)
    else
      match ret (cur + 1) with
      | Except.error e => some (Except.error e, cur + 1)
      | Except.ok nxt =>
        if nxt.status = RunStat.requires_action then
          some (Except.error requiresActionMsg, cur + 1)
        else
          pollGo ret (cur + 1) nxt fuel

/-- The source's poll phase: the initial retrieval, then the loop. -/
def pollPhase (ret : Nat → Except String RunSnapshot) (fuel : Nat) :
    Option (Except String RunSnapshot × Nat) :=
  match ret 0 with
  | Except.error e => some (Except.error e, 0)
  | Except.ok s0 => pollGo ret 0 s0 fuel

/-- Trace of the poll phase: retrievals at indices `0 .. lastIndex`. -/
def pollEvents (lastIndex : Nat) : List RemoteEvent :=
  (List.range (lastIndex + 1)).map RemoteEvent.retrieveRun

/-- Events of all phases up to and including polling, for `n` files and a poll
phase whose last retrieval index is `lastIndex`. -/
def preEvents (n lastIndex : Nat) : List RemoteEvent :=
  uploadEvents n ++
    [RemoteEvent.createThread, RemoteEvent.createMessage, RemoteEvent.createRun] ++
    pollEvents lastIndex

/-- The source's extraction loop over a message's content: the raw value of
the first text segment, `none` when there is none (the source then leaves
`rawResponse` at `null`). -/
def firstTextValue : List ContentPart → Option String
  | [] => none
  | ContentPart.text v :: _ => some v
  | ContentPart.image_file _ :: rest => firstTextValue rest

/-- The orchestrator `processImagesWithOpenAI`, embedded over a
`RemoteBehaviour`.  Returns the `OpenAIResponse` paired with the trace of
remote operations invoked, or `none` when the unbounded polling loop exceeds
`fuel` iterations.  Every thrown error message reaches the function's single
catch block, which returns the error form built from
`error.message || catchDefault`. -/
def processImagesWithOpenAI (B : RemoteBehaviour) (apiKey assistantId : String)
    (files : List MulterFile) (fuel : Nat) :
    Option (OpenAIResponse × List RemoteEvent) :=
  match uploadResults B files.length with
  | Except.error e =>
    some (OpenAIResponse.error (jsOrElse e catchDefault), uploadEvents files.length)
  | Except.ok fileIds =>
    match B.createThread with
    | Except.error e =>
      some (OpenAIResponse.error (jsOrElse e catchDefault),
        uploadEvents files.length ++ [RemoteEvent.createThread])
    | Except.ok _ =>
      match B.createMessage with
      | Except.error e =>
        some (OpenAIResponse.error (jsOrElse e catchDefault),
          uploadEvents files.length ++
            [RemoteEvent.createThread, RemoteEvent.createMessage])
      | Except.ok _ =>
        match B.createRun with
        | Except.error e =>
          some (OpenAIResponse.error (jsOrElse e catchDefault),
            uploadEvents files.length ++
              [RemoteEvent.createThread, RemoteEvent.createMessage,
                RemoteEvent.createRun])
        | Except.ok _ =>
          match pollPhase B.retrieveRun fuel with
          | none => none
          | some (Except.error e, lastIdx) =>
            some (OpenAIResponse.error (jsOrElse e catchDefault),
              preEvents files.length lastIdx)
          | some (Except.ok snap, lastIdx) =>
            if snap.status = RunStat.failed then
              some (OpenAIResponse.error
                  (jsOrElse (jsOptOr snap.lastErrorMessage runFailedFallback)
                    catchDefault),
                preEvents files.length lastIdx)
            else
              match B.listMessages with
              | Except.error e =>
                some (OpenAIResponse.error (jsOrElse e catchDefault),
                  preEvents files.length lastIdx ++ [RemoteEvent.listMessages])
              | Except.ok msgs =>
                match msgs.filter isAssistant with
                | [] =>
                  some (OpenAIResponse.error (jsOrElse noAssistantMsg catchDefault),
                    preEvents files.length lastIdx ++ [RemoteEvent.listMessages])
                | latest :: _ =>
                  some (OpenAIResponse.data (firstTextValue latest.content),
                    preEvents files.length lastIdx ++ [RemoteEvent.listMessages] ++
                      fileIds.map RemoteEvent.deleteFile)

/-- Whether an event is a remote file deletion. -/
def isDeleteEvent : RemoteEvent → Bool
  | RemoteEvent.deleteFile _ => true
  | _ => false

/-- The run-state sequence conditions under which the source's polling loop
exits: a `completed` or `failed` state at any retrieval, or a
`requires_action` state at a retrieval other than the initial one. -/
def exitAt (s : Nat → RunSnapshot) (i : Nat) : Prop :=
  (s i).status = RunStat.completed ∨ (s i).status = RunStat.failed ∨
    (1 ≤ i ∧ (s i).status = RunStat.requires_action)

/-- Body of an HTTP response of the route handler. -/
inductive ResponseBody
  | errorBody (message : String)
  | resultBody (result : OpenAIResponse)
  deriving DecidableEq, Repr

/-- An HTTP response of the route handler. -/
structure RouteResponse where
  status : Nat
  body : ResponseBody
  deriving DecidableEq, Repr

/-- JavaScript truthiness of a possibly-absent string field. -/
def jsTruthy : Option String → Bool
  | some v => v != ""
  | none => false

/-- The `/api/process-images` handler body from `registerRoutes`, given the
multipart-parsed fields and the orchestrator as an abstract call.  Returns
the HTTP response and whether the orchestrator was invoked. -/
def handleProcessImages (apiKey assistantId : Option String)
    (files : Option (List MulterFile))
    (analyze : List MulterFile → OpenAIResponse) : RouteResponse × Bool :=
  if !(jsTruthy apiKey && jsTruthy assistantId) then
    (⟨400, ResponseBody.errorBody "API key and Assistant ID are required"⟩, false)
  else
    match files with
    | none => (⟨400, ResponseBody.errorBody "No image files were uploaded"⟩, false)
    | some fs =>
      if fs.length = 0 then
        (⟨400, ResponseBody.errorBody "No image files were uploaded"⟩, false)
      else
        (⟨200, ResponseBody.resultBody (analyze fs)⟩, true)

/-! ### Concrete files and behaviours used in counterexamples and witnesses -/

/-- A small valid image file. -/
def fPng : MulterFile := ⟨"a.png", "image/png", 4⟩

/-- A second small valid image file. -/
def fJpg : MulterFile := ⟨"b.jpg", "image/jpeg", 5⟩

/-- A behaviour whose run fails during polling with reason `boom`. -/
def bPollFail : RemoteBehaviour where
  uploadFile := fun _ => Except.ok "file-1"
  createThread := Except.ok "th"
  createMessage := Except.ok ()
  createRun := Except.ok "run"
  retrieveRun := fun _ => Except.ok ⟨RunStat.failed, some "boom"⟩
  listMessages := Except.ok []
  deleteFile := fun _ => Except.ok ()

/-- A behaviour whose second upload rejects. -/
def bUploadFail : RemoteBehaviour where
  uploadFile := fun i => if i = 0 then Except.ok "id0" else Except.error "upload boom"
  createThread := Except.ok "th"
  createMessage := Except.ok ()
  createRun := Except.ok "run"
  retrieveRun := fun _ => Except.ok ⟨RunStat.completed, none⟩
  listMessages := Except.ok []
  deleteFile := fun _ => Except.ok ()

/-- A behaviour whose run completes but whose only assistant message has no
text segment. -/
def bNoText : RemoteBehaviour where
  uploadFile := fun _ => Except.ok "id-a"
  createThread := Except.ok "th"
  createMessage := Except.ok ()
  createRun := Except.ok "run"
  retrieveRun := fun _ => Except.ok ⟨RunStat.completed, none⟩
  listMessages := Except.ok [⟨MsgRole.assistant, [ContentPart.image_file "pic"]⟩]
  deleteFile := fun _ => Except.ok ()

/-- A second behaviour with a text-free assistant reply. -/
def bNoText2 : RemoteBehaviour where
  uploadFile := fun _ => Except.ok "id-c"
  createThread := Except.ok "th2"
  createMessage := Except.ok ()
  createRun := Except.ok "run2"
  retrieveRun := fun _ => Except.ok ⟨RunStat.completed, none⟩
  listMessages := Except.ok [⟨MsgRole.assistant, [ContentPart.image_file "img2"]⟩]
  deleteFile := fun _ => Except.ok ()

/-- A behaviour whose initial run retrieval observes `requires_action`, while
every later retrieval observes `completed`. -/
def bInitRA : RemoteBehaviour where
  uploadFile := fun _ => Except.ok "id-b"
  createThread := Except.ok "th"
  createMessage := Except.ok ()
  createRun := Except.ok "run"
  retrieveRun := fun i =>
    if i = 0 then Except.ok ⟨RunStat.requires_action, none⟩
    else Except.ok ⟨RunStat.completed, none⟩
  listMessages := Except.ok [⟨MsgRole.assistant, [ContentPart.text "hi"]⟩]
  deleteFile := fun _ => Except.ok ()

/-- A fully successful behaviour answering `hello`. -/
def bAllOk : RemoteBehaviour where
  uploadFile := fun _ => Except.ok "id-ok"
  createThread := Except.ok "th"
  createMessage := Except.ok ()
  createRun := Except.ok "run"
  retrieveRun := fun _ => Except.ok ⟨RunStat.completed, none⟩
  listMessages := Except.ok [⟨MsgRole.assistant, [ContentPart.text "hello"]⟩]
  deleteFile := fun _ => Except.ok ()

/-- A behaviour whose run completes but whose thread has no messages at all. -/
def bPollDone : RemoteBehaviour where
  uploadFile := fun _ => Except.ok "id-d"
  createThread := Except.ok "th"
  createMessage := Except.ok ()
  createRun := Except.ok "run"
  retrieveRun := fun _ => Except.ok ⟨RunStat.completed, none⟩
  listMessages := Except.ok []
  deleteFile := fun _ => Except.ok ()

/-- A retrieval observing a state on which the source's while-condition
exits. -/
def termAt (s : Nat → RunSnapshot) (i : Nat) : Prop :=
  (s i).status = RunStat.completed ∨ (s i).status = RunStat.failed

/-- The run-state sequence with `queued` at the initial retrieval and
`requires_action` from the first in-loop retrieval on. -/
def sLoopRA : Nat → RunSnapshot := fun i =>
  if i = 0 then ⟨RunStat.queued, none⟩ else ⟨RunStat.requires_action, none⟩

/-- A behaviour whose run reports `queued` initially and then
`requires_action`. -/
def bLoopRA : RemoteBehaviour where
  uploadFile := fun _ => Except.ok "id-e"
  createThread := Except.ok "th"
  createMessage := Except.ok ()
  createRun := Except.ok "run"
  retrieveRun := fun j => Except.ok (sLoopRA j)
  listMessages := Except.ok []
  deleteFile := fun _ => Except.ok ()

/-! ### Basic helper lemmas -/

theorem jsOrElse_ne_empty (e d : String) (hd : d ≠ "") : jsOrElse e d ≠ "" := by
  unfold jsOrElse
  split <;> simp_all

theorem collectUploads_length (B : RemoteBehaviour) :
    ∀ (l : List Nat) (ids : List String),
      collectUploads B l = Except.ok ids → ids.length = l.length := by
  intro l
  induction l with
  | nil =>
    intro ids h
    simp only [collectUploads, Except.ok.injEq] at h
    simp [← h]
  | cons i rest ih =>
    intro ids h
    unfold collectUploads at h
    cases hB : B.uploadFile i with
    | error e => rw [hB] at h; cases h
    | ok id =>
      rw [hB] at h
      cases hRec : collectUploads B rest with
      | error e => rw [hRec] at h; cases h
      | ok ids' =>
        rw [hRec] at h
        cases h
        simp [ih ids' hRec]

theorem collectUploads_ok_of_forall (B : RemoteBehaviour) :
    ∀ (l : List Nat), (∀ j ∈ l, ∃ id, B.uploadFile j = Except.ok id) →
      ∃ ids, collectUploads B l = Except.ok ids := by
  intro l
  induction l with
  | nil => intro _; exact ⟨[], rfl⟩
  | cons i rest ih =>
    intro hall
    obtain ⟨id, hid⟩ := hall i (by simp)
    obtain ⟨ids, hids⟩ := ih (fun j hj => hall j (by simp [hj]))
    exact ⟨id :: ids, by simp [collectUploads, hid, hids]⟩

theorem collectUploads_append (B : RemoteBehaviour) :
    ∀ (l1 l2 : List Nat),
      collectUploads B (l1 ++ l2) =
        match collectUploads B l1 with
        | Except.error e => Except.error e
        | Except.ok ids1 =>
          match collectUploads B l2 with
          | Except.error e => Except.error e
          | Except.ok ids2 => Except.ok (ids1 ++ ids2) := by
  intro l1 l2
  induction l1 with
  | nil =>
    simp only [List.nil_append, collectUploads]
    cases collectUploads B l2 <;> simp
  | cons i rest ih =>
    simp only [List.cons_append, collectUploads, List.append_eq, ih]
    cases B.uploadFile i with
    | error e => rfl
    | ok id =>
      cases collectUploads B rest with
      | error e => rfl
      | ok ids1 =>
        cases collectUploads B l2 <;> simp

theorem uploadResults_first_error (B : RemoteBehaviour) (n k : Nat) (e : String)
    (hk : k < n) (hfail : B.uploadFile k = Except.error e)
    (hok : ∀ j, j < k → ∃ id, B.uploadFile j = Except.ok id) :
    uploadResults B n = Except.error e := by
  obtain ⟨m, hm⟩ : ∃ m, n = (k + 1) + m := ⟨n - (k + 1), by omega⟩
  subst hm
  unfold uploadResults
  rw [List.range_add, collectUploads_append, List.range_succ, collectUploads_append]
  obtain ⟨ids, hids⟩ :=
    collectUploads_ok_of_forall B (List.range k)
      (fun j hj => hok j (List.mem_range.mp hj))
  rw [hids]
  simp [collectUploads, hfail]

theorem filter_delete_map_uploadFile (l : List Nat) :
    (l.map RemoteEvent.uploadFile).filter isDeleteEvent = [] := by
  induction l with
  | nil => rfl
  | cons i rest ih => simp [isDeleteEvent, ih]

theorem filter_delete_map_retrieveRun (l : List Nat) :
    (l.map RemoteEvent.retrieveRun).filter isDeleteEvent = [] := by
  induction l with
  | nil => rfl
  | cons i rest ih => simp [isDeleteEvent, ih]

theorem filter_delete_preEvents (n li : Nat) :
    (preEvents n li).filter isDeleteEvent = [] := by
  simp [preEvents, uploadEvents, pollEvents, List.filter_append,
    filter_delete_map_uploadFile, filter_delete_map_retrieveRun, isDeleteEvent]

theorem filter_delete_map_deleteFile (ids : List String) :
    (ids.map RemoteEvent.deleteFile).filter isDeleteEvent =
      ids.map RemoteEvent.deleteFile := by
  induction ids with
  | nil => rfl
  | cons i rest ih => simp [isDeleteEvent, ih]

/-! ### Claim counterexamples on concrete inputs -/

/-- Claim C1 counterexample: with one submitted file whose upload yields the
handle `file-1`, a behaviour whose run fails during polling makes the call
return the error form while the trace contains no delete at all — the created
handle is never targeted for deletion, contradicting the claimed invariant
that every handle is deleted exactly once even when the call fails during
polling. -/
theorem cleanup_skipped_on_poll_failure_cex :
    processImagesWithOpenAI bPollFail "key" "asst" [fPng] 3 =
      some (OpenAIResponse.error "boom",
        [RemoteEvent.uploadFile 0, RemoteEvent.createThread,
          RemoteEvent.createMessage, RemoteEvent.createRun,
          RemoteEvent.retrieveRun 0]) ∧
    bPollFail.uploadFile 0 = Except.ok "file-1" ∧
    RemoteEvent.deleteFile "file-1" ∉
      ([RemoteEvent.uploadFile 0, RemoteEvent.createThread,
        RemoteEvent.createMessage, RemoteEvent.createRun,
        RemoteEvent.retrieveRun 0] : List RemoteEvent) := by
  refine ⟨rfl, rfl, ?_⟩
  decide

/-- Claim C2 counterexample: with two files, the first upload yields handle
`id0` and the second upload fails; the call reports the upload failure and
creates no thread or run, but contrary to the claim it issues no delete for
the already-obtained handle `id0`. -/
theorem upload_failure_no_deletes_cex :
    processImagesWithOpenAI bUploadFail "key" "asst" [fPng, fJpg] 3 =
      some (OpenAIResponse.error "upload boom",
        [RemoteEvent.uploadFile 0, RemoteEvent.uploadFile 1]) ∧
    bUploadFail.uploadFile 0 = Except.ok "id0" ∧
    RemoteEvent.deleteFile "id0" ∉
      ([RemoteEvent.uploadFile 0, RemoteEvent.uploadFile 1] : List RemoteEvent) := by
  refine ⟨rfl, rfl, ?_⟩
  decide

/-- Claim C3 counterexample: on a valid input (non-empty credential and
assistant id, one file) and a behaviour whose run completes but whose only
assistant message has no text segment, the call returns the success form with
a null `data` value and no error — neither field is meaningfully populated. -/
theorem success_with_null_data_cex :
    processImagesWithOpenAI bNoText "sk-key" "asst-1" [fPng] 2 =
      some (OpenAIResponse.data none,
        [RemoteEvent.uploadFile 0, RemoteEvent.createThread,
          RemoteEvent.createMessage, RemoteEvent.createRun,
          RemoteEvent.retrieveRun 0, RemoteEvent.listMessages,
          RemoteEvent.deleteFile "id-a"]) := by
  rfl

/-- Claim C5 counterexample: the execution reaches the extraction phase, the
newest assistant-authored message exists but contains no text segment, and the
call nevertheless returns the success form `data none` rather than the claimed
fatal extraction error. -/
theorem no_text_segment_yields_null_success_cex :
    processImagesWithOpenAI bNoText2 "sk-key2" "asst-2" [fJpg] 2 =
      some (OpenAIResponse.data none,
        [RemoteEvent.uploadFile 0, RemoteEvent.createThread,
          RemoteEvent.createMessage, RemoteEvent.createRun,
          RemoteEvent.retrieveRun 0, RemoteEvent.listMessages,
          RemoteEvent.deleteFile "id-c"]) := by
  rfl

/-- Claim C6 counterexample: the initial run retrieval (poll index 0) observes
`requires_action`, yet the call performs a further retrieval (poll index 1)
and, the second retrieval observing `completed`, returns a success — not an
error — contradicting the claim for polling sequences whose `requires_action`
observation happens at the initial retrieval. -/
theorem initial_requires_action_not_aborted_cex :
    bInitRA.retrieveRun 0 = Except.ok ⟨RunStat.requires_action, none⟩ ∧
    processImagesWithOpenAI bInitRA "key" "asst" [fPng] 3 =
      some (OpenAIResponse.data (some "hi"),
        [RemoteEvent.uploadFile 0, RemoteEvent.createThread,
          RemoteEvent.createMessage, RemoteEvent.createRun,
          RemoteEvent.retrieveRun 0, RemoteEvent.retrieveRun 1,
          RemoteEvent.listMessages, RemoteEvent.deleteFile "id-b"]) ∧
    RemoteEvent.retrieveRun 1 ∈
      ([RemoteEvent.uploadFile 0, RemoteEvent.createThread,
        RemoteEvent.createMessage, RemoteEvent.createRun,
        RemoteEvent.retrieveRun 0, RemoteEvent.retrieveRun 1,
        RemoteEvent.listMessages, RemoteEvent.deleteFile "id-b"] :
          List RemoteEvent) := by
  refine ⟨rfl, rfl, ?_⟩
  decide

/-- Claim C8 counterexample: with an empty credential, an empty assistant id
and an empty file list — all violations of the claimed defensively
re-validated preconditions — the orchestrator does not reject with a
validation error: it proceeds to invoke remote operations (a thread is
created) and returns whatever the remote workflow yields. -/
theorem no_internal_validation_cex :
    processImagesWithOpenAI bAllOk "" "" [] 1 =
      some (OpenAIResponse.data (some "hello"),
        [RemoteEvent.createThread, RemoteEvent.createMessage,
          RemoteEvent.createRun, RemoteEvent.retrieveRun 0,
          RemoteEvent.listMessages]) ∧
    RemoteEvent.createThread ∈
      ([RemoteEvent.createThread, RemoteEvent.createMessage,
        RemoteEvent.createRun, RemoteEvent.retrieveRun 0,
        RemoteEvent.listMessages] : List RemoteEvent) := by
  refine ⟨rfl, ?_⟩
  decide

/-! ### Claim theorems settled by pinning each phase's outcome -/

/-- Claim C2, amended: if the upload of file `k` fails (all earlier uploads
succeeding) then the call creates no remote thread and no run and returns the
error form carrying the upload failure message, but — contrary to the original
claim — it issues no delete for the handles already obtained for files
`1..k-1`, and the remaining uploads are still attempted: the trace consists of
exactly the `n` upload attempts and nothing else. -/
theorem upload_failure_aborts_before_thread
    (B : RemoteBehaviour) (key aid : String) (files : List MulterFile) (fuel : Nat)
    (k : Nat) (e : String)
    (hk : k < files.length)
    (hfail : B.uploadFile k = Except.error e)
    (hok : ∀ j, j < k → ∃ id, B.uploadFile j = Except.ok id)
    (he : e ≠ "") :
    processImagesWithOpenAI B key aid files fuel =
      some (OpenAIResponse.error e, uploadEvents files.length) := by
  have hup := uploadResults_first_error B files.length k e hk hfail hok
  unfold processImagesWithOpenAI
  rw [hup]
  simp [jsOrElse, he]

/-- Witness for the amended C2 theorem at the concrete two-file behaviour
whose second upload rejects with message `upload boom`. -/
theorem upload_failure_aborts_before_thread_witness :
    processImagesWithOpenAI bUploadFail "kw" "aw" [fPng, fJpg] 5 =
      some (OpenAIResponse.error "upload boom", uploadEvents 2) := by
  refine upload_failure_aborts_before_thread bUploadFail "kw" "aw" [fPng, fJpg] 5 1
    "upload boom" (by decide) rfl ?_ (by decide)
  intro j hj
  have hj0 : j = 0 := by omega
  subst hj0
  exact ⟨"id0", rfl⟩

/-- Claim C4: when the run completes, the listed messages contain an
assistant-authored message, and the newest such message has a text segment,
the returned `data` equals that first text segment's raw value verbatim — the
embedding applies `firstTextValue`, no parsing. -/
theorem extraction_returns_verbatim_text
    (B : RemoteBehaviour) (key aid : String) (files : List MulterFile) (fuel : Nat)
    (ids : List String) (tid rid : String) (snap : RunSnapshot) (li : Nat)
    (msgs : List ThreadMessage) (latest : ThreadMessage) (rest : List ThreadMessage)
    (t : String)
    (hup : uploadResults B files.length = Except.ok ids)
    (hth : B.createThread = Except.ok tid)
    (hmsg : B.createMessage = Except.ok ())
    (hrun : B.createRun = Except.ok rid)
    (hpoll : pollPhase B.retrieveRun fuel = some (Except.ok snap, li))
    (hst : snap.status = RunStat.completed)
    (hlist : B.listMessages = Except.ok msgs)
    (hfilter : msgs.filter isAssistant = latest :: rest)
    (htext : firstTextValue latest.content = some t) :
    processImagesWithOpenAI B key aid files fuel =
      some (OpenAIResponse.data (some t),
        preEvents files.length li ++ [RemoteEvent.listMessages] ++
          ids.map RemoteEvent.deleteFile) := by
  unfold processImagesWithOpenAI
  rw [hup, hth, hmsg, hrun, hpoll]
  simp [hst, hlist, hfilter, htext]

/-- Witness for the C4 theorem at the fully successful one-file behaviour
whose assistant reply is the text `hello`. -/
theorem extraction_returns_verbatim_text_witness :
    processImagesWithOpenAI bAllOk "k" "a" [fPng] 2 =
      some (OpenAIResponse.data (some "hello"),
        preEvents 1 0 ++ [RemoteEvent.listMessages] ++
          ["id-ok"].map RemoteEvent.deleteFile) :=
  extraction_returns_verbatim_text bAllOk "k" "a" [fPng] 2 ["id-ok"] "th" "run"
    ⟨RunStat.completed, none⟩ 0
    [⟨MsgRole.assistant, [ContentPart.text "hello"]⟩]
    ⟨MsgRole.assistant, [ContentPart.text "hello"]⟩ [] "hello"
    rfl rfl rfl rfl rfl rfl rfl rfl rfl

/-- Claim C5, amended: in an execution reaching the extraction phase, the
absence of any assistant-authored message does produce the error form with the
fixed message `No response received from the assistant`; but — contrary to the
original claim — when the newest assistant message exists and merely lacks a
text segment, the call returns the success form with a null `data` value, not
an error. -/
theorem extraction_error_cases
    (B : RemoteBehaviour) (key aid : String) (files : List MulterFile) (fuel : Nat)
    (ids : List String) (tid rid : String) (snap : RunSnapshot) (li : Nat)
    (msgs : List ThreadMessage)
    (hup : uploadResults B files.length = Except.ok ids)
    (hth : B.createThread = Except.ok tid)
    (hmsg : B.createMessage = Except.ok ())
    (hrun : B.createRun = Except.ok rid)
    (hpoll : pollPhase B.retrieveRun fuel = some (Except.ok snap, li))
    (hst : snap.status = RunStat.completed)
    (hlist : B.listMessages = Except.ok msgs) :
    (msgs.filter isAssistant = [] →
      processImagesWithOpenAI B key aid files fuel =
        some (OpenAIResponse.error noAssistantMsg,
          preEvents files.length li ++ [RemoteEvent.listMessages])) ∧
    (∀ latest rest, msgs.filter isAssistant = latest :: rest →
      firstTextValue latest.content = none →
      processImagesWithOpenAI B key aid files fuel =
        some (OpenAIResponse.data none,
          preEvents files.length li ++ [RemoteEvent.listMessages] ++
            ids.map RemoteEvent.deleteFile)) := by
  constructor
  · intro hnone
    unfold processImagesWithOpenAI
    rw [hup, hth, hmsg, hrun, hpoll]
    simp [hst, hlist, hnone, jsOrElse, noAssistantMsg, catchDefault]
  · intro latest rest hfilter htext
    unfold processImagesWithOpenAI
    rw [hup, hth, hmsg, hrun, hpoll]
    simp [hst, hlist, hfilter, htext]

/-- Witness for the amended C5 theorem: a completed run whose message list is
empty yields the error form with the fixed no-assistant-response message. -/
theorem extraction_error_cases_witness :
    processImagesWithOpenAI bPollDone "k5" "a5" [fPng] 2 =
      some (OpenAIResponse.error noAssistantMsg,
        preEvents 1 0 ++ [RemoteEvent.listMessages]) :=
  (extraction_error_cases bPollDone "k5" "a5" [fPng] 2 ["id-d"] "th" "run"
    ⟨RunStat.completed, none⟩ 0 [] rfl rfl rfl rfl rfl rfl rfl).1 rfl

/-- Claim C7: when polling ends with a `failed` run, the reported error equals
the remote-supplied failure reason when one is present (a non-empty
`last_error` message — an empty string is falsy in the source's
`last_error?.message || fallback`), and the fixed fallback string when no
reason is supplied. -/
theorem failed_run_error_message
    (B : RemoteBehaviour) (key aid : String) (files : List MulterFile) (fuel : Nat)
    (ids : List String) (tid rid : String) (snap : RunSnapshot) (li : Nat)
    (hup : uploadResults B files.length = Except.ok ids)
    (hth : B.createThread = Except.ok tid)
    (hmsg : B.createMessage = Except.ok ())
    (hrun : B.createRun = Except.ok rid)
    (hpoll : pollPhase B.retrieveRun fuel = some (Except.ok snap, li))
    (hst : snap.status = RunStat.failed) :
    (∀ m, snap.lastErrorMessage = some m → m ≠ "" →
      processImagesWithOpenAI B key aid files fuel =
        some (OpenAIResponse.error m, preEvents files.length li)) ∧
    (snap.lastErrorMessage = none →
      processImagesWithOpenAI B key aid files fuel =
        some (OpenAIResponse.error runFailedFallback, preEvents files.length li)) := by
  constructor
  · intro m hm hne
    unfold processImagesWithOpenAI
    rw [hup, hth, hmsg, hrun, hpoll]
    simp [hst, hm, jsOptOr, jsOrElse, hne, catchDefault]
  · intro hm
    unfold processImagesWithOpenAI
    rw [hup, hth, hmsg, hrun, hpoll]
    simp [hst, hm, jsOptOr, jsOrElse, runFailedFallback, catchDefault]

/-- Witness for the C7 theorem at the concrete behaviour whose run fails with
the remote-supplied reason `boom`. -/
theorem failed_run_error_message_witness :
    processImagesWithOpenAI bPollFail "k7" "a7" [fPng] 2 =
      some (OpenAIResponse.error "boom", preEvents 1 0) :=
  (failed_run_error_message bPollFail "k7" "a7" [fPng] 2 ["file-1"] "th" "run"
    ⟨RunStat.failed, some "boom"⟩ 0 rfl rfl rfl rfl rfl rfl).1 "boom" rfl
    (by decide)

/-- Claim C9: the route handler answers 400 with the fixed first body when the
api key or assistant id is missing (absent or empty — both are falsy in the
source's check), answers 400 with the fixed second body when the credentials
are supplied but no files were, and in both cases does not invoke the
orchestrator. -/
theorem route_validation_responses
    (apiKey assistantId : Option String) (files : Option (List MulterFile))
    (analyze : List MulterFile → OpenAIResponse) :
    ((jsTruthy apiKey = false ∨ jsTruthy assistantId = false) →
      handleProcessImages apiKey assistantId files analyze =
        (⟨400, ResponseBody.errorBody "API key and Assistant ID are required"⟩,
          false)) ∧
    (jsTruthy apiKey = true → jsTruthy assistantId = true →
      (files = none ∨ files = some []) →
      handleProcessImages apiKey assistantId files analyze =
        (⟨400, ResponseBody.errorBody "No image files were uploaded"⟩, false)) := by
  constructor
  · intro h
    unfold handleProcessImages
    rcases h with h | h <;> simp [h]
  · intro h1 h2 h3
    unfold handleProcessImages
    rcases h3 with h3 | h3 <;> simp [h1, h2, h3]

/-- Witness for the C9 theorem: an absent api key yields the 400 response with
the credentials body and the orchestrator is not invoked. -/
theorem route_validation_responses_witness :
    handleProcessImages none (some "asst") (some [fPng])
        (fun _ => OpenAIResponse.data none) =
      (⟨400, ResponseBody.errorBody "API key and Assistant ID are required"⟩,
        false) :=
  (route_validation_responses none (some "asst") (some [fPng])
    (fun _ => OpenAIResponse.data none)).1 (Or.inl rfl)

/-! ### Claim C1: deletion behaviour across all outcomes -/

/-- Claim C1, amended: deletes are issued only on executions that return the
success form — there, all uploads succeeded, the number of handles created
equals the number of files submitted, and the trace contains exactly one
delete per handle, in upload order; on every execution returning the error
form (failure before the run is created, during polling, or at extraction)
no delete is issued at all. -/
theorem deletes_issued_iff_success
    (B : RemoteBehaviour) (key aid : String) (files : List MulterFile) (fuel : Nat)
    (r : OpenAIResponse) (tr : List RemoteEvent)
    (h : processImagesWithOpenAI B key aid files fuel = some (r, tr)) :
    ((∃ v, r = OpenAIResponse.data v) →
      ∃ ids, uploadResults B files.length = Except.ok ids ∧
        ids.length = files.length ∧
        tr.filter isDeleteEvent = ids.map RemoteEvent.deleteFile) ∧
    ((∃ m, r = OpenAIResponse.error m) → tr.filter isDeleteEvent = []) := by
  unfold processImagesWithOpenAI at h
  cases hup : uploadResults B files.length with
  | error e =>
    simp only [hup] at h
    obtain ⟨hr, htr⟩ := Prod.mk.injEq .. ▸ Option.some.injEq .. ▸ h
    subst hr; subst htr
    refine ⟨fun hv => ?_, fun _ => filter_delete_map_uploadFile _⟩
    obtain ⟨v, hv⟩ := hv
    exact OpenAIResponse.noConfusion hv
  | ok fileIds =>
    simp only [hup] at h
    cases hth : B.createThread with
    | error e =>
      simp only [hth] at h
      obtain ⟨hr, htr⟩ := Prod.mk.injEq .. ▸ Option.some.injEq .. ▸ h
      subst hr; subst htr
      refine ⟨fun hv => ?_, fun _ => ?_⟩
      · obtain ⟨v, hv⟩ := hv
        exact OpenAIResponse.noConfusion hv
      · simp [List.filter_append, filter_delete_map_uploadFile, uploadEvents,
          isDeleteEvent]
    | ok tid =>
      simp only [hth] at h
      cases hmsg : B.createMessage with
      | error e =>
        simp only [hmsg] at h
        obtain ⟨hr, htr⟩ := Prod.mk.injEq .. ▸ Option.some.injEq .. ▸ h
        subst hr; subst htr
        refine ⟨fun hv => ?_, fun _ => ?_⟩
        · obtain ⟨v, hv⟩ := hv
          exact OpenAIResponse.noConfusion hv
        · simp [List.filter_append, filter_delete_map_uploadFile, uploadEvents,
            isDeleteEvent]
      | ok u =>
        simp only [hmsg] at h
        cases hrun : B.createRun with
        | error e =>
          simp only [hrun] at h
          obtain ⟨hr, htr⟩ := Prod.mk.injEq .. ▸ Option.some.injEq .. ▸ h
          subst hr; subst htr
          refine ⟨fun hv => ?_, fun _ => ?_⟩
          · obtain ⟨v, hv⟩ := hv
            exact OpenAIResponse.noConfusion hv
          · simp [List.filter_append, filter_delete_map_uploadFile, uploadEvents,
              isDeleteEvent]
        | ok rid =>
          simp only [hrun] at h
          cases hpoll : pollPhase B.retrieveRun fuel with
          | none =>
            simp only [hpoll] at h
            exact Option.noConfusion h
          | some pr =>
            obtain ⟨pres, lastIdx⟩ := pr
            cases pres with
            | error e =>
              simp only [hpoll] at h
              obtain ⟨hr, htr⟩ := Prod.mk.injEq .. ▸ Option.some.injEq .. ▸ h
              subst hr; subst htr
              refine ⟨fun hv => ?_, fun _ => filter_delete_preEvents _ _⟩
              obtain ⟨v, hv⟩ := hv
              exact OpenAIResponse.noConfusion hv
            | ok snap =>
              simp only [hpoll] at h
              by_cases hst : snap.status = RunStat.failed
              · rw [if_pos hst] at h
                obtain ⟨hr, htr⟩ := Prod.mk.injEq .. ▸ Option.some.injEq .. ▸ h
                subst hr; subst htr
                refine ⟨fun hv => ?_, fun _ => filter_delete_preEvents _ _⟩
                obtain ⟨v, hv⟩ := hv
                exact OpenAIResponse.noConfusion hv
              · rw [if_neg hst] at h
                cases hlist : B.listMessages with
                | error e =>
                  simp only [hlist] at h
                  obtain ⟨hr, htr⟩ := Prod.mk.injEq .. ▸ Option.some.injEq .. ▸ h
                  subst hr; subst htr
                  refine ⟨fun hv => ?_, fun _ => ?_⟩
                  · obtain ⟨v, hv⟩ := hv
                    exact OpenAIResponse.noConfusion hv
                  · simp [List.filter_append, filter_delete_preEvents,
                      isDeleteEvent]
                | ok msgs =>
                  simp only [hlist] at h
                  cases hfilt : msgs.filter isAssistant with
                  | nil =>
                    simp only [hfilt] at h
                    obtain ⟨hr, htr⟩ := Prod.mk.injEq .. ▸ Option.some.injEq .. ▸ h
                    subst hr; subst htr
                    refine ⟨fun hv => ?_, fun _ => ?_⟩
                    · obtain ⟨v, hv⟩ := hv
                      exact OpenAIResponse.noConfusion hv
                    · simp [List.filter_append, filter_delete_preEvents,
                        isDeleteEvent]
                  | cons latest rest =>
                    simp only [hfilt] at h
                    obtain ⟨hr, htr⟩ := Prod.mk.injEq .. ▸ Option.some.injEq .. ▸ h
                    subst hr; subst htr
                    refine ⟨fun _ => ?_, fun hm => ?_⟩
                    · refine ⟨fileIds, rfl, ?_, ?_⟩
                      · have hl := collectUploads_length B (List.range files.length)
                          fileIds hup
                        simpa using hl
                      · simp [List.filter_append, filter_delete_preEvents,
                          filter_delete_map_deleteFile, isDeleteEvent]
                    · obtain ⟨m, hm⟩ := hm
                      exact OpenAIResponse.noConfusion hm

/-- Witness for the amended C1 theorem: the fully successful one-file run
creates one handle and its trace's delete events are exactly one delete for
that handle. -/
theorem deletes_issued_iff_success_witness :
    ∃ ids, uploadResults bAllOk 1 = Except.ok ids ∧
      ids.length = 1 ∧
      ([RemoteEvent.uploadFile 0, RemoteEvent.createThread,
        RemoteEvent.createMessage, RemoteEvent.createRun,
        RemoteEvent.retrieveRun 0, RemoteEvent.listMessages,
        RemoteEvent.deleteFile "id-ok"] : List RemoteEvent).filter isDeleteEvent =
        ids.map RemoteEvent.deleteFile :=
  (deletes_issued_iff_success bAllOk "k" "a" [fPng] 2
    (OpenAIResponse.data (some "hello"))
    [RemoteEvent.uploadFile 0, RemoteEvent.createThread,
      RemoteEvent.createMessage, RemoteEvent.createRun,
      RemoteEvent.retrieveRun 0, RemoteEvent.listMessages,
      RemoteEvent.deleteFile "id-ok"] rfl).1 ⟨some "hello", rfl⟩

/-! ### Claim C3: shape of the returned result -/

/-- Every error form the orchestrator returns carries a non-empty message:
each thrown message passes through the catch block's
`error.message || catchDefault`. -/
theorem processImages_error_ne_empty
    (B : RemoteBehaviour) (key aid : String) (files : List MulterFile) (fuel : Nat)
    (m : String) (tr : List RemoteEvent)
    (h : processImagesWithOpenAI B key aid files fuel =
      some (OpenAIResponse.error m, tr)) :
    m ≠ "" := by
  unfold processImagesWithOpenAI at h
  repeat' split at h
  all_goals
    first
    | exact Option.noConfusion h
    | (obtain ⟨hr, htr⟩ := Prod.mk.injEq .. ▸ Option.some.injEq .. ▸ h
       first
       | exact OpenAIResponse.noConfusion hr
       | (obtain hm := OpenAIResponse.error.injEq .. ▸ hr
          subst hm
          exact jsOrElse_ne_empty _ _ (by decide)))

/-- Claim C3, amended: for valid inputs the orchestrator never propagates a
fault — whenever it returns, the result is exactly one of the two forms: the
error form, always carrying a non-empty message, or the success form; but —
contrary to the original claim — the success form's `data` value may be null
(when the assistant reply lacks a text segment), so a result in which neither
field is meaningfully populated does occur. -/
theorem result_form_dichotomy
    (B : RemoteBehaviour) (key aid : String) (files : List MulterFile) (fuel : Nat)
    (r : OpenAIResponse) (tr : List RemoteEvent)
    (hkey : key ≠ "") (haid : aid ≠ "") (hfiles : files ≠ [])
    (h : processImagesWithOpenAI B key aid files fuel = some (r, tr)) :
    (∃ m, r = OpenAIResponse.error m ∧ m ≠ "") ∨
    (∃ v, r = OpenAIResponse.data v) := by
  cases r with
  | data v => exact Or.inr ⟨v, rfl⟩
  | error m =>
    exact Or.inl ⟨m, rfl, processImages_error_ne_empty B key aid files fuel m tr h⟩

/-- Witness for the amended C3 theorem at the valid input whose assistant
reply lacks a text segment: the success form with a null value. -/
theorem result_form_dichotomy_witness :
    (∃ m, OpenAIResponse.data (none : Option String) = OpenAIResponse.error m ∧
      m ≠ "") ∨
    (∃ v, OpenAIResponse.data (none : Option String) = OpenAIResponse.data v) :=
  result_form_dichotomy bNoText "sk-key" "asst-1" [fPng] 2
    (OpenAIResponse.data none)
    [RemoteEvent.uploadFile 0, RemoteEvent.createThread,
      RemoteEvent.createMessage, RemoteEvent.createRun,
      RemoteEvent.retrieveRun 0, RemoteEvent.listMessages,
      RemoteEvent.deleteFile "id-a"]
    (by decide) (by decide) (by decide) rfl

/-! ### Claim C8: absence of internal validation -/

/-- Claim C8, amended: the orchestrator performs no defensive re-validation.
With an empty credential, an empty assistant id and an empty file list it
still invokes the remote thread-creation operation, and a file violating the
declared size or media-type precondition is still submitted for upload; the
preconditions are enforced only at the transport layer. -/
theorem orchestrator_skips_validation :
    (∀ (B : RemoteBehaviour) (fuel : Nat) (r : OpenAIResponse)
        (tr : List RemoteEvent),
      processImagesWithOpenAI B "" "" [] fuel = some (r, tr) →
      RemoteEvent.createThread ∈ tr) ∧
    (∀ (B : RemoteBehaviour) (key aid : String) (bigf : MulterFile) (fuel : Nat)
        (r : OpenAIResponse) (tr : List RemoteEvent),
      10 * 1024 * 1024 < bigf.size ∨ bigf.mimetype.startsWith "image/" = false →
      processImagesWithOpenAI B key aid [bigf] fuel = some (r, tr) →
      RemoteEvent.uploadFile 0 ∈ tr) := by
  constructor
  · intro B fuel r tr h
    unfold processImagesWithOpenAI at h
    have h0 : uploadResults B (List.length ([] : List MulterFile)) =
        Except.ok [] := rfl
    rw [h0] at h
    repeat' split at h
    all_goals
      first
      | exact Option.noConfusion h
      | (obtain ⟨hr, htr⟩ := Prod.mk.injEq .. ▸ Option.some.injEq .. ▸ h
         subst htr
         simp [preEvents, uploadEvents, pollEvents]
         done)
      | simp_all
  · intro B key aid bigf fuel r tr _hviol h
    unfold processImagesWithOpenAI at h
    repeat' split at h
    all_goals
      first
      | exact Option.noConfusion h
      | (obtain ⟨hr, htr⟩ := Prod.mk.injEq .. ▸ Option.some.injEq .. ▸ h
         subst htr
         simp [preEvents, uploadEvents, pollEvents, List.range_succ])

/-- Witness for the amended C8 theorem: the all-empty input still leads to a
thread-creation call. -/
theorem orchestrator_skips_validation_witness :
    RemoteEvent.createThread ∈
      ([RemoteEvent.createThread, RemoteEvent.createMessage,
        RemoteEvent.createRun, RemoteEvent.retrieveRun 0,
        RemoteEvent.listMessages] : List RemoteEvent) :=
  orchestrator_skips_validation.1 bAllOk 1 (OpenAIResponse.data (some "hello"))
    [RemoteEvent.createThread, RemoteEvent.createMessage,
      RemoteEvent.createRun, RemoteEvent.retrieveRun 0,
      RemoteEvent.listMessages] rfl

/-! ### Poll-loop analysis: claims C6 and C10 -/

/-- If the polling loop returns, some retrieval observed an exit state: a
terminal `completed`/`failed` status, or `requires_action` at a retrieval
strictly beyond the starting one. -/
theorem pollGo_some_exit (ret : Nat → Except String RunSnapshot)
    (s : Nat → RunSnapshot) (hret : ∀ j, ret j = Except.ok (s j)) :
    ∀ (fuel cur : Nat) (res : Except String RunSnapshot × Nat),
      pollGo ret cur (s cur) fuel = some res →
      ∃ i, cur ≤ i ∧
        (termAt s i ∨ (cur < i ∧ (s i).status = RunStat.requires_action)) := by
  intro fuel
  induction fuel with
  | zero =>
    intro cur res h
    simp only [pollGo] at h
    by_cases ht : (s cur).status = RunStat.completed ∨ (s cur).status = RunStat.failed
    · exact ⟨cur, le_refl cur, Or.inl ht⟩
    · rw [if_neg ht] at h
      exact Option.noConfusion h
  | succ fuel ih =>
    intro cur res h
    simp only [pollGo] at h
    by_cases ht : (s cur).status = RunStat.completed ∨ (s cur).status = RunStat.failed
    · exact ⟨cur, le_refl cur, Or.inl ht⟩
    · rw [if_neg ht] at h
      simp only [hret (cur + 1)] at h
      by_cases hra : (s (cur + 1)).status = RunStat.requires_action
      · exact ⟨cur + 1, by omega, Or.inr ⟨by omega, hra⟩⟩
      · rw [if_neg hra] at h
        obtain ⟨i, hi1, hi2⟩ := ih (cur + 1) res h
        refine ⟨i, by omega, ?_⟩
        rcases hi2 with h2 | ⟨h2a, h2b⟩
        · exact Or.inl h2
        · exact Or.inr ⟨by omega, h2b⟩

/-- If the retrievals from the current one on show no exit state before index
`cur + d` and an exit state exactly there, the loop performs retrievals up to
index `cur + d` and stops there — with the thrown `requires_action` error if
that is what the exit state is, else with the terminal snapshot. -/
theorem pollGo_reaches (ret : Nat → Except String RunSnapshot)
    (s : Nat → RunSnapshot) (hret : ∀ j, ret j = Except.ok (s j)) :
    ∀ (d cur fuel : Nat), d ≤ fuel →
      (termAt s (cur + d) ∨
        (0 < d ∧ (s (cur + d)).status = RunStat.requires_action)) →
      (∀ j, cur ≤ j → j < cur + d → ¬ termAt s j) →
      (∀ j, cur < j → j < cur + d →
        (s j).status ≠ RunStat.requires_action) →
      pollGo ret cur (s cur) fuel =
        some (if (s (cur + d)).status = RunStat.requires_action
          then Except.error requiresActionMsg
          else Except.ok (s (cur + d)), cur + d) := by
  intro d
  induction d with
  | zero =>
    intro cur fuel _ hexit _ _
    simp only [Nat.add_zero] at hexit ⊢
    rcases hexit with ht | ⟨h0, _⟩
    · have hne : (s cur).status ≠ RunStat.requires_action := by
        rcases ht with h | h <;> simp [h]
      rw [if_neg hne]
      have ht' : (s cur).status = RunStat.completed ∨
          (s cur).status = RunStat.failed := ht
      cases fuel with
      | zero => simp only [pollGo]; rw [if_pos ht']
      | succ f => simp only [pollGo]; rw [if_pos ht']
    · omega
  | succ d ih =>
    intro cur fuel hfuel hexit hterm hra
    have hcur : ¬ termAt s cur := hterm cur (le_refl cur) (by omega)
    cases fuel with
    | zero => omega
    | succ f =>
      have hcur' : ¬ ((s cur).status = RunStat.completed ∨
          (s cur).status = RunStat.failed) := hcur
      simp only [pollGo]
      rw [if_neg hcur']
      simp only [hret (cur + 1)]
      by_cases hra1 : (s (cur + 1)).status = RunStat.requires_action
      · have hd0 : d = 0 := by
          by_contra hd
          exact hra (cur + 1) (by omega) (by omega) hra1
        subst hd0
        rw [if_pos hra1]
        simp [hra1]
      · rw [if_neg hra1]
        have hex2 : termAt s (cur + 1 + d) ∨
            (0 < d ∧ (s (cur + 1 + d)).status = RunStat.requires_action) := by
          have heq : cur + 1 + d = cur + (d + 1) := by omega
          rw [heq]
          rcases hexit with h | ⟨_, h⟩
          · exact Or.inl h
          · rcases Nat.eq_zero_or_pos d with hd | hd
            · exfalso
              apply hra1
              subst hd
              simpa using h
            · exact Or.inr ⟨hd, h⟩
        have hterm2 : ∀ j, cur + 1 ≤ j → j < cur + 1 + d → ¬ termAt s j :=
          fun j hj1 hj2 => hterm j (by omega) (by omega)
        have hra2 : ∀ j, cur + 1 < j → j < cur + 1 + d →
            (s j).status ≠ RunStat.requires_action :=
          fun j hj1 hj2 => hra j (by omega) (by omega)
        have hrec := ih (cur + 1) f (by omega) hex2 hterm2 hra2
        rw [hrec]
        have heq : cur + 1 + d = cur + (d + 1) := by omega
        rw [heq]

/-- The poll phase on a retrieval sequence whose first exit observation is at
index `i`: the loop retrieves exactly up to index `i` and stops there. -/
theorem pollPhase_reaches (ret : Nat → Except String RunSnapshot)
    (s : Nat → RunSnapshot) (hret : ∀ j, ret j = Except.ok (s j)) (i : Nat)
    (hexit : exitAt s i) (hmin : ∀ j, j < i → ¬ exitAt s j)
    (fuel : Nat) (hfuel : i ≤ fuel) :
    pollPhase ret fuel =
      some (if (s i).status = RunStat.requires_action
        then Except.error requiresActionMsg
        else Except.ok (s i), i) := by
  unfold pollPhase
  simp only [hret 0]
  have hmain := pollGo_reaches ret s hret i 0 fuel (by omega) ?_ ?_ ?_
  · simpa using hmain
  · simp only [Nat.zero_add]
    rcases hexit with h | h | ⟨h1, h2⟩
    · exact Or.inl (Or.inl h)
    · exact Or.inl (Or.inr h)
    · exact Or.inr ⟨by omega, h2⟩
  · intro j hj1 hj2
    simp only [Nat.zero_add] at hj2
    intro ht
    refine hmin j hj2 ?_
    rcases ht with h | h
    · exact Or.inl h
    · exact Or.inr (Or.inl h)
  · intro j hj1 hj2
    simp only [Nat.zero_add] at hj2
    intro hr
    exact hmin j hj2 (Or.inr (Or.inr ⟨by omega, hr⟩))

/-- Claim C6, amended: a `requires_action` state observed at an in-loop
retrieval (index at least 1, no earlier exit observation) makes the call
return the error form with the fixed requires-action message, and the trace
shows no retrieval was performed after the one that observed it; a
`requires_action` observed at the initial retrieval, by contrast, does not
abort by itself (see the counterexample). -/
theorem inloop_requires_action_aborts
    (B : RemoteBehaviour) (key aid : String) (files : List MulterFile) (fuel : Nat)
    (ids : List String) (tid rid : String) (s : Nat → RunSnapshot) (i : Nat)
    (hup : uploadResults B files.length = Except.ok ids)
    (hth : B.createThread = Except.ok tid)
    (hmsg : B.createMessage = Except.ok ())
    (hrun : B.createRun = Except.ok rid)
    (hret : ∀ j, B.retrieveRun j = Except.ok (s j))
    (hi : 1 ≤ i)
    (hra : (s i).status = RunStat.requires_action)
    (hmin : ∀ j, j < i → ¬ exitAt s j)
    (hfuel : i ≤ fuel) :
    processImagesWithOpenAI B key aid files fuel =
      some (OpenAIResponse.error requiresActionMsg, preEvents files.length i) := by
  have hpoll := pollPhase_reaches B.retrieveRun s hret i
    (Or.inr (Or.inr ⟨hi, hra⟩)) hmin fuel hfuel
  rw [if_pos hra] at hpoll
  unfold processImagesWithOpenAI
  rw [hup, hth, hmsg, hrun]
  simp only [hpoll]
  simp [jsOrElse, requiresActionMsg, catchDefault]

/-- Witness for the amended C6 theorem: `queued` at the initial retrieval,
`requires_action` at the first in-loop retrieval — the call aborts with the
fixed message after exactly the two retrievals. -/
theorem inloop_requires_action_aborts_witness :
    processImagesWithOpenAI bLoopRA "k6" "a6" [fPng] 1 =
      some (OpenAIResponse.error requiresActionMsg, preEvents 1 1) := by
  refine inloop_requires_action_aborts bLoopRA "k6" "a6" [fPng] 1 ["id-e"]
    "th" "run" sLoopRA 1 rfl rfl rfl rfl (fun j => rfl) (by omega) rfl ?_ (by omega)
  intro j hj
  have hj0 : j = 0 := by omega
  subst hj0
  simp [exitAt, sLoopRA]

/-- With the pre-poll phases succeeding, the orchestrator returns a value
precisely when the poll phase does: every post-poll branch produces a
result. -/
theorem processImages_isSome_iff (B : RemoteBehaviour) (key aid : String)
    (files : List MulterFile) (fuel : Nat) (ids : List String) (tid rid : String)
    (hup : uploadResults B files.length = Except.ok ids)
    (hth : B.createThread = Except.ok tid)
    (hmsg : B.createMessage = Except.ok ())
    (hrun : B.createRun = Except.ok rid) :
    (processImagesWithOpenAI B key aid files fuel).isSome =
      (pollPhase B.retrieveRun fuel).isSome := by
  unfold processImagesWithOpenAI
  rw [hup, hth, hmsg, hrun]
  cases hpoll : pollPhase B.retrieveRun fuel with
  | none => simp
  | some pr =>
    obtain ⟨res, li⟩ := pr
    cases res with
    | error e => simp
    | ok snap =>
      by_cases hst : snap.status = RunStat.failed
      · simp [hst]
      · cases hlist : B.listMessages with
        | error e => simp [hst, hlist]
        | ok msgs =>
          cases hfilt : msgs.filter isAssistant with
          | nil => simp [hst, hlist, hfilt]
          | cons a b => simp [hst, hlist, hfilt]

/-- If the poll phase returns, the run-state sequence contains an exit
observation. -/
theorem pollPhase_some_exit (ret : Nat → Except String RunSnapshot)
    (s : Nat → RunSnapshot) (hret : ∀ j, ret j = Except.ok (s j))
    (fuel : Nat) (res : Except String RunSnapshot × Nat)
    (h : pollPhase ret fuel = some res) : ∃ i, exitAt s i := by
  unfold pollPhase at h
  simp only [hret 0] at h
  obtain ⟨i, hi1, hi2⟩ := pollGo_some_exit ret s hret fuel 0 res h
  refine ⟨i, ?_⟩
  rcases hi2 with ht | ⟨hlt, hra⟩
  · rcases ht with h1 | h1
    · exact Or.inl h1
    · exact Or.inr (Or.inl h1)
  · exact Or.inr (Or.inr ⟨by omega, hra⟩)

/-- If the run-state sequence contains an exit observation, some fuel makes
the poll phase return. -/
theorem pollPhase_isSome_of_exit (ret : Nat → Except String RunSnapshot)
    (s : Nat → RunSnapshot) (hret : ∀ j, ret j = Except.ok (s j)) :
    ∀ i, exitAt s i → ∃ fuel, (pollPhase ret fuel).isSome := by
  intro i
  induction i using Nat.strong_induction_on with
  | _ i ih =>
    intro hexit
    by_cases hmin : ∀ j, j < i → ¬ exitAt s j
    · refine ⟨i, ?_⟩
      rw [pollPhase_reaches ret s hret i hexit hmin i (le_refl i)]
      rfl
    · push_neg at hmin
      obtain ⟨j, hj, hexitj⟩ := hmin
      exact ih j hj hexitj

/-- Claim C10: once the pre-poll phases have succeeded, the call returns (for
some fuel bound) exactly when the run-state sequence contains `completed` or
`failed` at some retrieval, or `requires_action` at a retrieval after the
initial one; on a sequence with no such observation — for example a run
settled permanently in `cancelled`, `expired` or `incomplete` — the polling
loop keeps retrieving for every fuel bound and the function never returns. -/
theorem termination_iff_exit_state
    (B : RemoteBehaviour) (key aid : String) (files : List MulterFile)
    (ids : List String) (tid rid : String) (s : Nat → RunSnapshot)
    (hup : uploadResults B files.length = Except.ok ids)
    (hth : B.createThread = Except.ok tid)
    (hmsg : B.createMessage = Except.ok ())
    (hrun : B.createRun = Except.ok rid)
    (hret : ∀ j, B.retrieveRun j = Except.ok (s j)) :
    (∃ fuel, (processImagesWithOpenAI B key aid files fuel).isSome) ↔
      (∃ i, exitAt s i) := by
  constructor
  · rintro ⟨fuel, hsome⟩
    rw [processImages_isSome_iff B key aid files fuel ids tid rid
      hup hth hmsg hrun] at hsome
    obtain ⟨res, hres⟩ := Option.isSome_iff_exists.mp hsome
    exact pollPhase_some_exit B.retrieveRun s hret fuel res hres
  · rintro ⟨i, hexit⟩
    obtain ⟨fuel, hsome⟩ := pollPhase_isSome_of_exit B.retrieveRun s hret i hexit
    refine ⟨fuel, ?_⟩
    rw [processImages_isSome_iff B key aid files fuel ids tid rid
      hup hth hmsg hrun]
    exact hsome

/-- Witness for the C10 theorem at the fully successful behaviour whose run
is `completed` at every retrieval. -/
theorem termination_iff_exit_state_witness :
    ∃ fuel, (processImagesWithOpenAI bAllOk "kt" "az" [fPng] fuel).isSome :=
  (termination_iff_exit_state bAllOk "kt" "az" [fPng] ["id-ok"] "th" "run"
    (fun _ => ⟨RunStat.completed, none⟩) rfl rfl rfl rfl (fun j => rfl)).mpr
    ⟨0, Or.inl rfl⟩
